import Mathlib

/-!
A shallow embedding of the HTTP gateway of PaddleOCR-json
(src/cpp/src/http_server.cpp) and proofs about its request handlers.

External collaborators (the nlohmann JSON parser, cv::imdecode, the base64
decoder, the OCR backend `Task::run_ocr_mat`, and the outbound cpp-httplib
client) are modelled as oracle fields of an `Env` record: the gateway's own
logic is translated statement by statement, and every claim is proved for
all oracle behaviours (or at a concrete oracle, for witnesses).

Handlers additionally return a trace of `Event`s recording each invocation
of the image decoder and each outbound network GET, so that statements of
the form "the decoder is never invoked on this payload" and "no network I/O
is performed" are expressible.
-/

namespace PaddleOCR

/-- The JSON value type, standing in for `nlohmann::json`.  Integers model
the numeric values used by the gateway (HTTP codes, timestamps). -/
inductive Json where
  | null : Json
  | bool (b : Bool) : Json
  | num (n : Int) : Json
  | str (s : String) : Json
  | arr (elems : List Json) : Json
  | obj (fields : List (String × Json)) : Json
deriving Repr

/-- Escape one character for JSON string serialization, as
`nlohmann::json::dump` does for the characters appearing in this gateway. -/
def jsonEscapeChar (c : Char) : String :=
  if c = '"' then "\\\""
  else if c = '\\' then "\\\\"
  else if c = '\n' then "\\n"
  else if c = '\t' then "\\t"
  else if c = '\r' then "\\r"
  else String.singleton c

/-- Escape a string for JSON serialization. -/
def jsonEscape (s : String) : String :=
  String.join (s.data.map jsonEscapeChar)

mutual

/-- Compact serialization, modelling `nlohmann::json::dump()`. -/
def Json.dump : Json → String
  | .null => "null"
  | .bool true => "true"
  | .bool false => "false"
  | .num n => toString n
  | .str s => "\"" ++ jsonEscape s ++ "\""
  | .arr xs => "[" ++ Json.dumpElems xs ++ "]"
  | .obj fs => "\x7b" ++ Json.dumpFields fs ++ "\x7d"

/-- Serialize the comma-separated elements of a JSON array. -/
def Json.dumpElems : List Json → String
  | [] => ""
  | [x] => Json.dump x
  | x :: y :: xs => Json.dump x ++ "," ++ Json.dumpElems (y :: xs)

/-- Serialize the comma-separated key/value pairs of a JSON object. -/
def Json.dumpFields : List (String × Json) → String
  | [] => ""
  | [(k, v)] => "\"" ++ jsonEscape k ++ "\":" ++ Json.dump v
  | (k, v) :: f :: fs =>
      "\"" ++ jsonEscape k ++ "\":" ++ Json.dump v ++ "," ++ Json.dumpFields (f :: fs)

end

/-- `nlohmann::json::contains(key)`: true only on objects that hold the key. -/
def Json.contains (j : Json) (key : String) : Bool :=
  match j with
  | .obj fs => fs.any (fun kv => kv.1 = key)
  | _ => false

/-- Read access `j[key]` on a const `nlohmann::json` (null when absent;
the gateway only uses it after a successful `contains` check). -/
def Json.get (j : Json) (key : String) : Json :=
  match j with
  | .obj fs =>
      match fs.lookup key with
      | some v => v
      | none => .null
  | _ => .null

/-- The nlohmann type name used in `type_error` diagnostics. -/
def Json.typeName : Json → String
  | .null => "null"
  | .bool _ => "boolean"
  | .num _ => "number"
  | .str _ => "string"
  | .arr _ => "array"
  | .obj _ => "object"

/-- The implicit conversion `std::string s = j;` on an `nlohmann::json`
value: succeeds only on strings, otherwise throws
`json.exception.type_error.302` (a `std::exception` that is not a
`parse_error`), modelled as the `.error` case carrying `what()`. -/
def Json.asString : Json → Except String String
  | .str s => .ok s
  | j => .error ("[json.exception.type_error.302] type must be string, but is " ++ j.typeName)

/-- A decoded raster (`cv::Mat` that is non-empty); `decode` oracles return
`none` for an empty `cv::Mat`. -/
structure Image where
  cols : Nat
  rows : Nat
deriving Repr, DecidableEq

/-- One part of a multipart form (`httplib::FormData`). -/
structure FormFile where
  filename : String
  content : String
deriving Repr, DecidableEq

/-- The parts of an incoming HTTP request that the gateway reads: the raw
body text and the parsed multipart form.  File content is a byte string. -/
structure Request where
  body : String
  form : List (String × FormFile)
deriving Repr, DecidableEq

/-- The parts of an `httplib::Response` the gateway writes.  cpp-httplib
finalizes an untouched status as 200, hence the default. -/
structure Response where
  status : Nat := 200
  body : String := ""
  contentType : Option String := none
deriving Repr, DecidableEq

/-- Observable side effects of a handler run: each invocation of the image
decoder on a payload, each outbound network GET, and each OCR call. -/
inductive Event where
  | decode (data : String) : Event
  | netGet (ssl : Bool) (host : String) (port : Int) (path : String) : Event
  | ocr : Event
deriving Repr, DecidableEq

/-- The external collaborators of the gateway, as oracles:
* `parseJson` — `nlohmann::json::parse`, `.error` carrying `what()` of the
  thrown `parse_error`;
* `imdecode` — `cv::imdecode`, `none` meaning an empty `cv::Mat`;
* `base64_decode` — the base64 decoder, `none` meaning it threw;
* `run_ocr_mat` — the OCR backend, `.error` carrying `what()` of a thrown
  `std::exception`;
* `httpGet` — one outbound `Client::Get`/`SSLClient::Get`, `none` meaning a
  null `httplib::Result`, otherwise the response status and body;
* `sslSupport` — whether the binary was compiled with
  `CPPHTTPLIB_OPENSSL_SUPPORT`;
* `timeNow` — `std::time(nullptr)`. -/
structure Env where
  parseJson : String → Except String Json
  imdecode : String → Option Image
  base64_decode : String → Option String
  run_ocr_mat : Image → Except String String
  httpGet : Bool → String → Int → String → Option (Int × String)
  sslSupport : Bool
  timeNow : Int

/-- `HttpServer::decode_image_from_bytes`: a thin wrapper over
`cv::imdecode`. -/
def decode_image_from_bytes (env : Env) (data : String) : Option Image :=
  env.imdecode data

/-- `HttpServer::create_error_response`: the serialized error envelope.
nlohmann stores object keys sorted, and "code" < "error". -/
def create_error_response (code : Int) (message : String) : String :=
  (Json.obj [("code", Json.num code), ("error", Json.str message)]).dump

/-- The version string `PROJECT_VER`. -/
def PROJECT_VER : String := "v1.4.1 dev.1"

/-- Leading decimal digits of a character list, or `none` when there are
none (modelling the `std::invalid_argument` thrown by `std::stoi`). -/
def stoiDigits (cs : List Char) : Option Nat :=
  let ds := cs.takeWhile Char.isDigit
  if ds.isEmpty then none
  else some (ds.foldl (fun acc c => acc * 10 + (c.toNat - 48)) 0)

/-- `std::stoi`: skip leading whitespace, accept an optional sign, parse
leading digits, stop at the first non-digit; `none` models the thrown
`std::invalid_argument` (no digits) or `std::out_of_range` (outside the
range of a 32-bit `int`). -/
def stoi (s : String) : Option Int :=
  let cs := s.data.dropWhile
    (fun c => c = ' ' || c = '\t' || c = '\n' || c = '\r' || c = '\x0b' || c = '\x0c')
  let signed : Bool × List Char :=
    match cs with
    | '-' :: r => (true, r)
    | '+' :: r => (false, r)
    | r => (false, r)
  match stoiDigits signed.2 with
  | none => none
  | some n =>
      let v : Int := if signed.1 then -(n : Int) else (n : Int)
      if v < -2147483648 ∨ 2147483647 < v then none else some v

/-- Split a character list at the first occurrence of `sep`, dropping the
separator; `none` when `sep` does not occur (`std::string::npos`). -/
def splitAtFirst (sep : Char) : List Char → Option (List Char × List Char)
  | [] => none
  | c :: cs =>
      if c = sep then some ([], cs)
      else
        match splitAtFirst sep cs with
        | none => none
        | some (a, b) => some (c :: a, b)

/-- The result of the manual URL parsing in
`HttpServer::download_image_from_url`. -/
structure UrlParts where
  use_ssl : Bool
  host : String
  port : Int
  path : String
deriving Repr, DecidableEq

/-- The port extraction of `download_image_from_url`: a ':' inside the host
part carries an explicit port parsed by `std::stoi` (whose exceptions are
caught by the enclosing handler, with `what() == "stoi"`), otherwise the
scheme's default port stands. -/
def parse_url_hostport (use_ssl : Bool) (default_port : Int)
    (hostPart path : String) : Except String UrlParts :=
  match splitAtFirst ':' hostPart.data with
  | some (h, ps) =>
      match stoi (String.mk ps) with
      | some portVal =>
          .ok { use_ssl := use_ssl, host := String.mk h, port := portVal, path := path }
      | none => .error "Error downloading image: stoi"
  | none => .ok { use_ssl := use_ssl, host := hostPart, port := default_port, path := path }

/-- The host/path split of `download_image_from_url`, applied to the URL
with its scheme already stripped: the first '/' separates host from path
(the path keeps the '/', and is "/" when no '/' is present). -/
def parse_url_rest (use_ssl : Bool) (default_port : Int) (rest : String) :
    Except String UrlParts :=
  match splitAtFirst '/' rest.data with
  | some (h, p) =>
      parse_url_hostport use_ssl default_port (String.mk h) (String.mk ('/' :: p))
  | none => parse_url_hostport use_ssl default_port rest "/"

/-- The URL parsing of `download_image_from_url`: an exact, case-sensitive
byte-prefix test for "https://" (port 443) then "http://" (port 80); any
other prefix is the scheme error. -/
def parse_url (url : String) : Except String UrlParts :=
  if url.take 8 = "https://" then
    parse_url_rest true 443 (url.drop 8)
  else if url.take 7 = "http://" then
    parse_url_rest false 80 (url.drop 7)
  else
    .error "Invalid URL scheme. Use http:// or https://"

/-- `HttpServer::download_image_from_url`: returns the decoded image (or
`none` for an empty `cv::Mat`), the `error` out-parameter (left "" on paths
that never assign it), and the trace of decoder/network events.  When built
without `CPPHTTPLIB_OPENSSL_SUPPORT`, an https URL fails before any network
request; a non-null response with status ≠ 200 or a null result produces
the "Failed to fetch image: HTTP <n>" error; a 200 body over 10 MiB is
rejected before decode. -/
def download_image_from_url (env : Env) (url : String) :
    Option Image × String × List Event :=
  match parse_url url with
  | .error e => (none, e, [])
  | .ok p =>
      if p.use_ssl && !env.sslSupport then
        (none, "HTTPS not supported (compiled without SSL support)", [])
      else
        match env.httpGet p.use_ssl p.host p.port p.path with
        | some (status, respBody) =>
            if status = 200 then
              if respBody.length > 10 * 1024 * 1024 then
                (none, "Image size exceeds 10MB limit",
                  [Event.netGet p.use_ssl p.host p.port p.path])
              else
                (decode_image_from_bytes env respBody, "",
                  [Event.netGet p.use_ssl p.host p.port p.path, Event.decode respBody])
            else
              (none, "Failed to fetch image: HTTP " ++ toString status,
                [Event.netGet p.use_ssl p.host p.port p.path])
        | none =>
            (none, "Failed to fetch image: HTTP 0",
              [Event.netGet p.use_ssl p.host p.port p.path])

/-- `HttpServer::handle_health`. -/
def handle_health (env : Env) (_req : Request) : Response × List Event :=
  ({ body := (Json.obj [("status", Json.str "ok"), ("timestamp", Json.num env.timeNow),
        ("version", Json.str PROJECT_VER)]).dump,
     contentType := some "application/json" }, [])

/-- `HttpServer::handle_version`. -/
def handle_version (_env : Env) (_req : Request) : Response × List Event :=
  ({ body := (Json.obj [("api_version", Json.str "v1"), ("name", Json.str "PaddleOCR-json"),
        ("version", Json.str PROJECT_VER)]).dump,
     contentType := some "application/json" }, [])

/-- `HttpServer::handle_ocr_upload` (`POST /api/ocr`): multipart field
"image" must exist; a file over 10 MiB is 413 before decode; decode failure
is 400; on OCR success the backend text is re-parsed and re-serialized,
falling back to the raw text; a thrown backend exception is 500. -/
def handle_ocr_upload (env : Env) (req : Request) : Response × List Event :=
  match req.form.lookup "image" with
  | none =>
      ({ status := 400,
         body := create_error_response 400
           "No image file provided. Use 'image' field in form data.",
         contentType := some "application/json" }, [])
  | some file =>
      if file.content.length > 10 * 1024 * 1024 then
        ({ status := 413,
           body := create_error_response 413 "File size exceeds 10MB limit",
           contentType := some "application/json" }, [])
      else
        match decode_image_from_bytes env file.content with
        | none =>
            ({ status := 400,
               body := create_error_response 400
                 "Invalid image format. Supported: JPEG, PNG, BMP, TIFF",
               contentType := some "application/json" }, [Event.decode file.content])
        | some img =>
            match env.run_ocr_mat img with
            | .error e =>
                ({ status := 500,
                   body := create_error_response 500 ("Internal server error: " ++ e),
                   contentType := some "application/json" },
                 [Event.decode file.content, Event.ocr])
            | .ok result =>
                match env.parseJson result with
                | .ok result_json =>
                    ({ body := result_json.dump, contentType := some "application/json" },
                     [Event.decode file.content, Event.ocr])
                | .error _ =>
                    ({ body := result, contentType := some "application/json" },
                     [Event.decode file.content, Event.ocr])

/-- `HttpServer::handle_ocr_base64` (`POST /api/ocr/base64`): body must
parse as JSON (else 400), contain "image" (else 400); the implicit string
conversion throws a `type_error` on a non-string value, which only the
generic `std::exception` clause catches (500); a base64 failure is 400, a
decode failure 400; the OCR text is returned verbatim. -/
def handle_ocr_base64 (env : Env) (req : Request) : Response × List Event :=
  match env.parseJson req.body with
  | .error e =>
      ({ status := 400, body := create_error_response 400 ("Invalid JSON: " ++ e),
         contentType := some "application/json" }, [])
  | .ok body =>
      if !(body.contains "image") then
        ({ status := 400,
           body := create_error_response 400 "Missing 'image' field in JSON body",
           contentType := some "application/json" }, [])
      else
        match (body.get "image").asString with
        | .error e =>
            ({ status := 500,
               body := create_error_response 500 ("Internal server error: " ++ e),
               contentType := some "application/json" }, [])
        | .ok base64_str =>
            match env.base64_decode base64_str with
            | none =>
                ({ status := 400,
                   body := create_error_response 400 "Invalid base64 encoding",
                   contentType := some "application/json" }, [])
            | some decoded_str =>
                match decode_image_from_bytes env decoded_str with
                | none =>
                    ({ status := 400,
                       body := create_error_response 400 "Invalid image format",
                       contentType := some "application/json" },
                     [Event.decode decoded_str])
                | some img =>
                    match env.run_ocr_mat img with
                    | .error e =>
                        ({ status := 500,
                           body := create_error_response 500 ("Internal server error: " ++ e),
                           contentType := some "application/json" },
                         [Event.decode decoded_str, Event.ocr])
                    | .ok result =>
                        ({ body := result, contentType := some "application/json" },
                         [Event.decode decoded_str, Event.ocr])

/-- The tail of `HttpServer::handle_ocr_url` once the URL string has been
extracted: the download, the empty-image check (400 with the fetcher's
error when non-empty, else the generic message), and the OCR invocation
whose text is returned verbatim. -/
def ocr_url_fetch (env : Env) (url : String) : Response × List Event :=
  match download_image_from_url env url with
  | (none, error, tr) =>
      ({ status := 400,
         body := create_error_response 400
           (if error = "" then "Failed to download or decode image from URL"
            else error),
         contentType := some "application/json" }, tr)
  | (some img, _, tr) =>
      match env.run_ocr_mat img with
      | .error e =>
          ({ status := 500,
             body := create_error_response 500 ("Internal server error: " ++ e),
             contentType := some "application/json" }, tr ++ [Event.ocr])
      | .ok result =>
          ({ body := result, contentType := some "application/json" },
           tr ++ [Event.ocr])

/-- `HttpServer::handle_ocr_url` (`POST /api/ocr/url`): body must parse as
JSON (else 400) and contain "url" (else 400; a non-string value throws a
`type_error` caught as 500); then the download/decode/OCR tail
(`ocr_url_fetch`) runs. -/
def handle_ocr_url (env : Env) (req : Request) : Response × List Event :=
  match env.parseJson req.body with
  | .error e =>
      ({ status := 400, body := create_error_response 400 ("Invalid JSON: " ++ e),
         contentType := some "application/json" }, [])
  | .ok body =>
      if !(body.contains "url") then
        ({ status := 400,
           body := create_error_response 400 "Missing 'url' field in JSON body",
           contentType := some "application/json" }, [])
      else
        match (body.get "url").asString with
        | .error e =>
            ({ status := 500,
               body := create_error_response 500 ("Internal server error: " ++ e),
               contentType := some "application/json" }, [])
        | .ok url => ocr_url_fetch env url

/-- The configured transport-level body limit:
`server_.set_payload_max_length(10 * 1024 * 1024)`. -/
def payload_max_length : Nat := 10 * 1024 * 1024

/-- Modelled from the spec: cpp-httplib itself (not part of src/) enforces
`set_payload_max_length` by rejecting any request whose body exceeds the
configured maximum with HTTP 413 before the route handler runs; this
definition is that transport-level gate. -/
def transport_reject (bodyLen : Nat) : Option Nat :=
  if bodyLen > payload_max_length then some 413 else none

/-! ### Shared helpers for the theorems -/

/-- A baseline oracle environment for concrete evaluations; witnesses
override the fields they need. -/
def baseEnv : Env where
  parseJson := fun _ => .error "syntax error"
  imdecode := fun _ => none
  base64_decode := fun _ => none
  run_ocr_mat := fun _ => .error "ocr failure"
  httpGet := fun _ _ _ _ => none
  sslSupport := false
  timeNow := 0

/-- The uniform error envelope: the body is exactly the serialized
`create_error_response` of the response's own HTTP status and a non-empty
message. -/
abbrev errorEnvelope (st : Nat) (body : String) : Prop :=
  ∃ m, m ≠ "" ∧ body = create_error_response (st : Int) m

lemma append_ne_empty_left (a b : String) (h : a.length ≠ 0) : a ++ b ≠ "" := by
  intro hab
  have hl := congrArg String.length hab
  rw [String.length_append] at hl
  have h0 : ("" : String).length = 0 := rfl
  omega

/-- C9: on every code path of every registered handler, including all error
paths, the response Content-Type is application/json. -/
theorem C9_content_type_always_json (env : Env) (req : Request) :
    (handle_health env req).1.contentType = some "application/json" ∧
    (handle_version env req).1.contentType = some "application/json" ∧
    (handle_ocr_upload env req).1.contentType = some "application/json" ∧
    (handle_ocr_base64 env req).1.contentType = some "application/json" ∧
    (handle_ocr_url env req).1.contentType = some "application/json" := by
  refine ⟨rfl, rfl, ?_, ?_, ?_⟩
  · unfold handle_ocr_upload
    repeat' split
    all_goals rfl
  · unfold handle_ocr_base64
    repeat' split
    all_goals rfl
  · unfold handle_ocr_url ocr_url_fetch
    repeat' split
    all_goals rfl

/-- C7: on every error path of every handler the body is exactly the JSON
object with "code" equal to the response's HTTP status and a non-empty
"error" message; no other error shape is emitted. -/
theorem C7_error_envelope (env : Env) (req : Request) :
    ((handle_health env req).1.status ≠ 200 →
      errorEnvelope (handle_health env req).1.status (handle_health env req).1.body) ∧
    ((handle_version env req).1.status ≠ 200 →
      errorEnvelope (handle_version env req).1.status (handle_version env req).1.body) ∧
    ((handle_ocr_upload env req).1.status ≠ 200 →
      errorEnvelope (handle_ocr_upload env req).1.status (handle_ocr_upload env req).1.body) ∧
    ((handle_ocr_base64 env req).1.status ≠ 200 →
      errorEnvelope (handle_ocr_base64 env req).1.status (handle_ocr_base64 env req).1.body) ∧
    ((handle_ocr_url env req).1.status ≠ 200 →
      errorEnvelope (handle_ocr_url env req).1.status (handle_ocr_url env req).1.body) := by
  refine ⟨fun h => absurd rfl h, fun h => absurd rfl h, ?_, ?_, ?_⟩
  · unfold handle_ocr_upload
    repeat' split
    all_goals intro hst
    all_goals
      first
        | exact absurd rfl hst
        | exact ⟨_, by decide, rfl⟩
        | exact ⟨_, append_ne_empty_left _ _ (by decide), rfl⟩
  · unfold handle_ocr_base64
    repeat' split
    all_goals intro hst
    all_goals
      first
        | exact absurd rfl hst
        | exact ⟨_, by decide, rfl⟩
        | exact ⟨_, append_ne_empty_left _ _ (by decide), rfl⟩
  · unfold handle_ocr_url ocr_url_fetch
    repeat' split
    all_goals intro hst
    all_goals
      first
        | exact absurd rfl hst
        | (refine ⟨_, ?_, rfl⟩
           first
             | decide
             | exact append_ne_empty_left _ _ (by decide)
             | assumption)

/-- C7 witness: a concrete request with no "image" form part makes
`handle_ocr_upload` take an error path, and the envelope holds there. -/
theorem C7_error_envelope_witness :
    (handle_ocr_upload baseEnv { body := "", form := [] }).1.status ≠ 200 ∧
    errorEnvelope (handle_ocr_upload baseEnv { body := "", form := [] }).1.status
      (handle_ocr_upload baseEnv { body := "", form := [] }).1.body :=
  ⟨by decide,
   (C7_error_envelope baseEnv { body := "", form := [] }).2.2.1 (by decide)⟩

/-- The scheme-error message of `download_image_from_url`. -/
def schemeErrorMsg : String := "Invalid URL scheme. Use http:// or https://"

lemma download_scheme_error (env : Env) (url : String)
    (hns : url.take 8 ≠ "https://") (hnh : url.take 7 ≠ "http://") :
    download_image_from_url env url = (none, schemeErrorMsg, []) := by
  unfold download_image_from_url parse_url
  rw [if_neg hns, if_neg hnh]
  rfl

lemma handle_ocr_url_download (env : Env) (req : Request) (j : Json) (url : String)
    (hparse : env.parseJson req.body = .ok j)
    (hhas : j.contains "url" = true)
    (hget : (j.get "url").asString = .ok url) :
    handle_ocr_url env req = ocr_url_fetch env url := by
  unfold handle_ocr_url
  rw [hparse]
  simp only [hhas, Bool.not_true, Bool.false_eq_true, if_false, hget]

/-- C2: for a URL whose scheme is neither http nor https, the Remote
Fetcher fails with the invalid-scheme error message before any network I/O
is performed (no netGet event), and `/api/ocr/url` responds HTTP 400 with
that message. -/
theorem C2_invalid_scheme (env : Env) (req : Request) (j : Json) (url : String)
    (hparse : env.parseJson req.body = .ok j)
    (hhas : j.contains "url" = true)
    (hget : (j.get "url").asString = .ok url)
    (hns : url.take 8 ≠ "https://")
    (hnh : url.take 7 ≠ "http://") :
    download_image_from_url env url = (none, schemeErrorMsg, []) ∧
    (handle_ocr_url env req).1.status = 400 ∧
    (handle_ocr_url env req).1.body = create_error_response 400 schemeErrorMsg ∧
    ∀ s h p pa, Event.netGet s h p pa ∉ (handle_ocr_url env req).2 := by
  have hdl := download_scheme_error env url hns hnh
  have hh := handle_ocr_url_download env req j url hparse hhas hget
  have hfetch : ocr_url_fetch env url =
      ({ status := 400, body := create_error_response 400 schemeErrorMsg,
         contentType := some "application/json" }, []) := by
    unfold ocr_url_fetch
    rw [hdl]
    simp [schemeErrorMsg]
  rw [hfetch] at hh
  refine ⟨hdl, ?_, ?_, ?_⟩
  · rw [hh]
  · rw [hh]
  · intro s h p pa
    rw [hh]
    simp

/-- C2 witness: the concrete URL "ftp://example.com/x.jpg". -/
def c2env : Env :=
  { baseEnv with
    parseJson := fun _ => .ok (Json.obj [("url", Json.str "ftp://example.com/x.jpg")]) }

theorem C2_invalid_scheme_witness :
    "ftp://example.com/x.jpg".take 8 ≠ "https://" ∧
    "ftp://example.com/x.jpg".take 7 ≠ "http://" ∧
    (download_image_from_url c2env "ftp://example.com/x.jpg" =
      (none, schemeErrorMsg, []) ∧
     (handle_ocr_url c2env { body := "", form := [] }).1.status = 400 ∧
     (handle_ocr_url c2env { body := "", form := [] }).1.body =
       create_error_response 400 schemeErrorMsg ∧
     ∀ s h p pa,
       Event.netGet s h p pa ∉ (handle_ocr_url c2env { body := "", form := [] }).2) :=
  ⟨by decide, by decide,
   C2_invalid_scheme c2env { body := "", form := [] } _ "ftp://example.com/x.jpg"
     rfl rfl rfl (by decide) (by decide)⟩

lemma parse_url_hostport_ok (b : Bool) (dp : Int) (hostPart path : String) (p : UrlParts)
    (h : parse_url_hostport b dp hostPart path = .ok p) :
    p.use_ssl = b ∧ p.path = path ∧
    (match splitAtFirst ':' hostPart.data with
     | some (_, ps) => stoi (String.mk ps) = some p.port
     | none => p.port = dp) := by
  unfold parse_url_hostport at h
  split at h
  · rename_i h1 ps heq
    split at h
    · rename_i pv hpv
      injection h with h
      subst h
      exact ⟨rfl, rfl, hpv⟩
    · simp at h
  · rename_i heq
    injection h with h
    subst h
    exact ⟨rfl, rfl, rfl⟩

lemma parse_url_rest_use_ssl (b : Bool) (dp : Int) (rest : String) (p : UrlParts)
    (h : parse_url_rest b dp rest = .ok p) : p.use_ssl = b := by
  unfold parse_url_rest at h
  split at h
  · exact (parse_url_hostport_ok _ _ _ _ _ h).1
  · exact (parse_url_hostport_ok _ _ _ _ _ h).1

lemma parse_url_https_ssl (url : String) (p : UrlParts)
    (hs : url.take 8 = "https://") (h : parse_url url = .ok p) : p.use_ssl = true := by
  unfold parse_url at h
  rw [if_pos hs] at h
  exact parse_url_rest_use_ssl _ _ _ _ h

/-- The spec's description of manual URL parsing, for the URL with its
scheme stripped: the port is the scheme default unless the host part (the
text before the first '/') carries an explicit ':port' suffix, in which
case that port (as `std::stoi` reads it) is used; the path runs from the
first '/' after the host, or is "/" when no '/' is present. -/
def url_parts_spec (rest : String) (defaultPort : Int) (p : UrlParts) : Prop :=
  (match splitAtFirst ':' (match splitAtFirst '/' rest.data with
                           | some (hp, _) => hp
                           | none => rest.data) with
   | some (_, ps) => stoi (String.mk ps) = some p.port
   | none => p.port = defaultPort) ∧
  p.path = (match splitAtFirst '/' rest.data with
            | some (_, t) => String.mk ('/' :: t)
            | none => "/")

lemma parse_url_rest_spec (b : Bool) (dp : Int) (rest : String) (p : UrlParts)
    (h : parse_url_rest b dp rest = .ok p) : url_parts_spec rest dp p := by
  unfold parse_url_rest at h
  unfold url_parts_spec
  split at h
  · rename_i h1 p1 heq
    have hf := parse_url_hostport_ok _ _ _ _ _ h
    exact ⟨hf.2.2, hf.2.1⟩
  · rename_i heq
    have hf := parse_url_hostport_ok _ _ _ _ _ h
    exact ⟨hf.2.2, hf.2.1⟩

/-- C6: for every URL the Remote Fetcher accepts (its manual parse
succeeds), the scheme prefix is exactly https or http; the port is 443 for
https and 80 for http unless an explicit ':port' suffix is present in the
host part, in which case that port is used; and the path is the substring
from the first '/' after the host, or "/" when no '/' is present. -/
theorem C6_manual_url_parsing (url : String) (p : UrlParts)
    (h : parse_url url = .ok p) :
    (url.take 8 = "https://" ∨ url.take 7 = "http://") ∧
    (url.take 8 = "https://" → url_parts_spec (url.drop 8) 443 p) ∧
    (url.take 8 ≠ "https://" → url.take 7 = "http://" →
      url_parts_spec (url.drop 7) 80 p) := by
  refine ⟨?_, ?_, ?_⟩
  · by_cases hs : url.take 8 = "https://"
    · exact Or.inl hs
    · by_cases hh : url.take 7 = "http://"
      · exact Or.inr hh
      · exfalso
        unfold parse_url at h
        rw [if_neg hs, if_neg hh] at h
        exact Except.noConfusion h
  · intro hs
    unfold parse_url at h
    rw [if_pos hs] at h
    exact parse_url_rest_spec _ _ _ _ h
  · intro hns hh
    unfold parse_url at h
    rw [if_neg hns, if_pos hh] at h
    exact parse_url_rest_spec _ _ _ _ h

/-- C6 witness: "http://example.com:8080/img.png" parses to port 8080 and
path "/img.png". -/
theorem C6_manual_url_parsing_witness :
    parse_url "http://example.com:8080/img.png" =
      .ok { use_ssl := false, host := "example.com", port := 8080, path := "/img.png" } ∧
    url_parts_spec ("http://example.com:8080/img.png".drop 7) 80
      { use_ssl := false, host := "example.com", port := 8080, path := "/img.png" } :=
  ⟨rfl,
   (C6_manual_url_parsing "http://example.com:8080/img.png" _ rfl).2.2
     (by decide) (by decide)⟩

/-- C8: built without TLS support, an https URL makes the fetch fail with
the explicit "HTTPS not supported" error before any network request, and
`/api/ocr/url` responds HTTP 400 with that message. -/
theorem C8_https_without_tls (env : Env) (req : Request) (j : Json)
    (url : String) (p : UrlParts)
    (hnossl : env.sslSupport = false)
    (hs : url.take 8 = "https://")
    (hp : parse_url url = .ok p)
    (hparse : env.parseJson req.body = .ok j)
    (hhas : j.contains "url" = true)
    (hget : (j.get "url").asString = .ok url) :
    download_image_from_url env url =
      (none, "HTTPS not supported (compiled without SSL support)", []) ∧
    (handle_ocr_url env req).1.status = 400 ∧
    (handle_ocr_url env req).1.body =
      create_error_response 400 "HTTPS not supported (compiled without SSL support)" ∧
    ∀ s h po pa, Event.netGet s h po pa ∉ (handle_ocr_url env req).2 := by
  have hssl := parse_url_https_ssl url p hs hp
  have hdl : download_image_from_url env url =
      (none, "HTTPS not supported (compiled without SSL support)", []) := by
    unfold download_image_from_url
    rw [hp]
    simp [hssl, hnossl]
  have hh := handle_ocr_url_download env req j url hparse hhas hget
  have hfetch : ocr_url_fetch env url =
      ({ status := 400,
         body := create_error_response 400
           "HTTPS not supported (compiled without SSL support)",
         contentType := some "application/json" }, []) := by
    unfold ocr_url_fetch
    rw [hdl]
    simp
  rw [hfetch] at hh
  refine ⟨hdl, ?_, ?_, ?_⟩
  · rw [hh]
  · rw [hh]
  · intro s h po pa
    rw [hh]
    simp

/-- C8 witness: "https://example.com/x.jpg" in a TLS-less build. -/
def c8env : Env :=
  { baseEnv with
    parseJson := fun _ => .ok (Json.obj [("url", Json.str "https://example.com/x.jpg")]) }

theorem C8_https_without_tls_witness :
    c8env.sslSupport = false ∧
    "https://example.com/x.jpg".take 8 = "https://" ∧
    (download_image_from_url c8env "https://example.com/x.jpg" =
      (none, "HTTPS not supported (compiled without SSL support)", []) ∧
     (handle_ocr_url c8env { body := "", form := [] }).1.status = 400 ∧
     (handle_ocr_url c8env { body := "", form := [] }).1.body =
       create_error_response 400 "HTTPS not supported (compiled without SSL support)" ∧
     ∀ s h po pa,
       Event.netGet s h po pa ∉ (handle_ocr_url c8env { body := "", form := [] }).2) :=
  ⟨rfl, by decide,
   C8_https_without_tls c8env { body := "", form := [] } _ "https://example.com/x.jpg"
     { use_ssl := true, host := "example.com", port := 443, path := "/x.jpg" }
     rfl (by decide) rfl rfl rfl rfl⟩

/-- C4: when the fetched URL yields a response whose status is not 200, the
Remote Fetcher fails with an error message identifying that status code,
and `/api/ocr/url` responds HTTP 400 with an error message containing that
status code. -/
theorem C4_non_200_fetch (env : Env) (req : Request) (j : Json)
    (url : String) (p : UrlParts) (st : Int) (b : String)
    (hparse : env.parseJson req.body = .ok j)
    (hhas : j.contains "url" = true)
    (hget : (j.get "url").asString = .ok url)
    (hp : parse_url url = .ok p)
    (hssl : p.use_ssl = true → env.sslSupport = true)
    (hres : env.httpGet p.use_ssl p.host p.port p.path = some (st, b))
    (hne : st ≠ 200) :
    download_image_from_url env url =
      (none, "Failed to fetch image: HTTP " ++ toString st,
       [Event.netGet p.use_ssl p.host p.port p.path]) ∧
    (handle_ocr_url env req).1.status = 400 ∧
    (handle_ocr_url env req).1.body =
      create_error_response 400 ("Failed to fetch image: HTTP " ++ toString st) ∧
    ∃ pre post,
      "Failed to fetch image: HTTP " ++ toString st = pre ++ toString st ++ post := by
  have hdl : download_image_from_url env url =
      (none, "Failed to fetch image: HTTP " ++ toString st,
       [Event.netGet p.use_ssl p.host p.port p.path]) := by
    unfold download_image_from_url
    rw [hp]
    have hcond : (p.use_ssl && !env.sslSupport) = false := by
      cases hu : p.use_ssl
      · simp
      · simp [hssl (by rw [hu])]
    simp only [hcond, Bool.false_eq_true, if_false, hres]
    rw [if_neg hne]
  have hh := handle_ocr_url_download env req j url hparse hhas hget
  have hfetch : ocr_url_fetch env url =
      ({ status := 400,
         body := create_error_response 400 ("Failed to fetch image: HTTP " ++ toString st),
         contentType := some "application/json" },
       [Event.netGet p.use_ssl p.host p.port p.path]) := by
    have hne' : "Failed to fetch image: HTTP " ++ toString st ≠ "" :=
      append_ne_empty_left _ _ (by decide)
    unfold ocr_url_fetch
    rw [hdl]
    simp [hne']
  rw [hfetch] at hh
  refine ⟨hdl, ?_, ?_, ?_⟩
  · rw [hh]
  · rw [hh]
  · exact ⟨"Failed to fetch image: HTTP ", "", by simp⟩

/-- C4 witness: the target responds 404. -/
def c4env : Env :=
  { baseEnv with
    parseJson := fun _ => .ok (Json.obj [("url", Json.str "http://example.com/missing.jpg")]),
    httpGet := fun _ _ _ _ => some (404, "not found") }

theorem C4_non_200_fetch_witness :
    c4env.httpGet false "example.com" 80 "/missing.jpg" = some (404, "not found") ∧
    (404 : Int) ≠ 200 ∧
    (download_image_from_url c4env "http://example.com/missing.jpg" =
      (none, "Failed to fetch image: HTTP " ++ toString (404 : Int),
       [Event.netGet false "example.com" 80 "/missing.jpg"]) ∧
     (handle_ocr_url c4env { body := "", form := [] }).1.status = 400 ∧
     (handle_ocr_url c4env { body := "", form := [] }).1.body =
       create_error_response 400 ("Failed to fetch image: HTTP " ++ toString (404 : Int)) ∧
     ∃ pre post,
       "Failed to fetch image: HTTP " ++ toString (404 : Int) =
         pre ++ toString (404 : Int) ++ post) :=
  ⟨rfl, by decide,
   C4_non_200_fetch c4env { body := "", form := [] } _ "http://example.com/missing.jpg"
     { use_ssl := false, host := "example.com", port := 80, path := "/missing.jpg" }
     404 "not found" rfl (by decide) rfl rfl
     (fun hf => absurd hf (by decide)) rfl (by decide)⟩

/-- C10: the scheme check of the Remote Fetcher is a case-sensitive
byte-prefix comparison: a URL is treated as https exactly when its first 8
bytes are "https://", as http exactly otherwise when its first 7 bytes are
"http://", and any other prefix (including an upper- or mixed-case scheme)
fails with the invalid-scheme error before any network I/O. -/
theorem C10_scheme_exact_bytes (env : Env) (url : String) :
    (∀ p, parse_url url = .ok p → (p.use_ssl = true ↔ url.take 8 = "https://")) ∧
    (∀ p, parse_url url = .ok p →
       (p.use_ssl = false ↔ url.take 8 ≠ "https://" ∧ url.take 7 = "http://")) ∧
    (url.take 8 ≠ "https://" → url.take 7 ≠ "http://" →
       download_image_from_url env url = (none, schemeErrorMsg, []) ∧
       ∀ s h po pa, Event.netGet s h po pa ∉ (download_image_from_url env url).2.2) := by
  refine ⟨?_, ?_, ?_⟩
  · intro p h
    unfold parse_url at h
    by_cases hs : url.take 8 = "https://"
    · rw [if_pos hs] at h
      simp [parse_url_rest_use_ssl _ _ _ _ h, hs]
    · rw [if_neg hs] at h
      by_cases hh : url.take 7 = "http://"
      · rw [if_pos hh] at h
        simp [parse_url_rest_use_ssl _ _ _ _ h, hs]
      · rw [if_neg hh] at h
        exact Except.noConfusion h
  · intro p h
    unfold parse_url at h
    by_cases hs : url.take 8 = "https://"
    · rw [if_pos hs] at h
      simp [parse_url_rest_use_ssl _ _ _ _ h, hs]
    · rw [if_neg hs] at h
      by_cases hh : url.take 7 = "http://"
      · rw [if_pos hh] at h
        simp [parse_url_rest_use_ssl _ _ _ _ h, hs, hh]
      · rw [if_neg hh] at h
        exact Except.noConfusion h
  · intro hns hnh
    refine ⟨download_scheme_error env url hns hnh, ?_⟩
    intro s h po pa
    rw [download_scheme_error env url hns hnh]
    simp

/-- C10 witness: "HTTP://example.com/x.jpg" (upper-case scheme) is
rejected with the scheme error and no netGet event. -/
theorem C10_scheme_exact_bytes_witness :
    "HTTP://example.com/x.jpg".take 8 ≠ "https://" ∧
    "HTTP://example.com/x.jpg".take 7 ≠ "http://" ∧
    download_image_from_url baseEnv "HTTP://example.com/x.jpg" =
      (none, schemeErrorMsg, []) ∧
    ∀ s h po pa, Event.netGet s h po pa ∉
      (download_image_from_url baseEnv "HTTP://example.com/x.jpg").2.2 := by
  have h := (C10_scheme_exact_bytes baseEnv "HTTP://example.com/x.jpg").2.2
    (by decide) (by decide)
  exact ⟨by decide, by decide, h.1, h.2⟩

/-- C5: on OCR success, `/api/ocr` re-parses the backend text and sends
the re-serialization, falling back to the verbatim text when the re-parse
fails; `/api/ocr/base64` and `/api/ocr/url` always send the backend text
verbatim. -/
theorem C5_backend_text_forwarding (env : Env) (req : Request) :
    (∀ f img result, req.form.lookup "image" = some f →
       f.content.length ≤ 10 * 1024 * 1024 →
       env.imdecode f.content = some img →
       env.run_ocr_mat img = .ok result →
       (handle_ocr_upload env req).1.body =
         (match env.parseJson result with
          | .ok j => j.dump
          | .error _ => result)) ∧
    (∀ j b64 decoded img result,
       env.parseJson req.body = .ok j →
       j.contains "image" = true →
       (j.get "image").asString = .ok b64 →
       env.base64_decode b64 = some decoded →
       env.imdecode decoded = some img →
       env.run_ocr_mat img = .ok result →
       (handle_ocr_base64 env req).1.body = result) ∧
    (∀ j url img err tr result,
       env.parseJson req.body = .ok j →
       j.contains "url" = true →
       (j.get "url").asString = .ok url →
       download_image_from_url env url = (some img, err, tr) →
       env.run_ocr_mat img = .ok result →
       (handle_ocr_url env req).1.body = result) := by
  refine ⟨?_, ?_, ?_⟩
  · intro f img result hf hle hdec hocr
    unfold handle_ocr_upload
    simp only [hf]
    rw [if_neg (by omega)]
    unfold decode_image_from_bytes
    simp only [hdec, hocr]
    cases hpj : env.parseJson result <;> simp [hpj]
  · intro j b64 decoded img result hparse hhas hget hb64 hdec hocr
    unfold handle_ocr_base64
    simp only [hparse, hhas, Bool.not_true, Bool.false_eq_true, if_false, hget, hb64]
    unfold decode_image_from_bytes
    simp only [hdec, hocr]
  · intro j url img err tr result hparse hhas hget hdl hocr
    rw [handle_ocr_url_download env req j url hparse hhas hget]
    unfold ocr_url_fetch
    simp only [hdl, hocr]

/-- C5 witness: a backend text "[1,2]" that the re-parse oracle accepts;
the upload handler re-serializes it, the base64 handler forwards it. -/
def c5env : Env :=
  { baseEnv with
    parseJson := fun s =>
      if s = "[1,2]" then .ok (Json.arr [Json.num 1, Json.num 2])
      else .ok (Json.obj [("image", Json.str "QUJD")]),
    base64_decode := fun _ => some "ABC",
    imdecode := fun _ => some { cols := 2, rows := 3 },
    run_ocr_mat := fun _ => .ok "[1,2]" }

def c5req : Request :=
  { body := "", form := [("image", { filename := "a.png", content := "PNGDATA" })] }

theorem C5_backend_text_forwarding_witness :
    c5req.form.lookup "image" = some { filename := "a.png", content := "PNGDATA" } ∧
    c5env.run_ocr_mat { cols := 2, rows := 3 } = .ok "[1,2]" ∧
    (handle_ocr_upload c5env c5req).1.body =
      (match c5env.parseJson "[1,2]" with
       | .ok j => j.dump
       | .error _ => "[1,2]") ∧
    (handle_ocr_base64 c5env c5req).1.body = "[1,2]" := by
  have h := C5_backend_text_forwarding c5env c5req
  exact ⟨rfl, rfl,
    h.1 _ { cols := 2, rows := 3 } "[1,2]" rfl (by decide) rfl rfl,
    h.2.1 _ "QUJD" "ABC" { cols := 2, rows := 3 } "[1,2]" rfl rfl rfl rfl rfl rfl⟩

/-- C3 counterexample environment: the body parses to a JSON object whose
"image" field is the number 12345. -/
def c3env : Env :=
  { baseEnv with
    parseJson := fun _ => .ok (Json.obj [("image", Json.num 12345)]) }

/-- C3 counterexample: for a valid-JSON body whose "image" field is a
number, `handle_ocr_base64` responds 500 (the `type_error` from the
implicit string conversion is not a `parse_error`, so only the generic
`std::exception` clause catches it), not 400 as claimed. -/
theorem C3_counterexample :
    c3env.parseJson "x" = .ok (Json.obj [("image", Json.num 12345)]) ∧
    (Json.obj [("image", Json.num 12345)]).contains "image" = true ∧
    (handle_ocr_base64 c3env { body := "x", form := [] }).1.status = 500 ∧
    (handle_ocr_base64 c3env { body := "x", form := [] }).1.status ≠ 400 :=
  ⟨rfl, rfl, rfl, by decide⟩

/-- C3 (amended): for every valid-JSON request body whose "image" field
holds a non-string JSON value, the gateway responds HTTP 500 with an
Internal-server-error envelope carrying the nlohmann type-error text
(not HTTP 400: the thrown `type_error` is not a `parse_error`, so it
falls to the generic exception handler). -/
theorem C3_nonstring_image_is_500 (env : Env) (req : Request) (j : Json)
    (hparse : env.parseJson req.body = .ok j)
    (hhas : j.contains "image" = true)
    (hnstr : ∀ s, j.get "image" ≠ Json.str s) :
    (handle_ocr_base64 env req).1.status = 500 ∧
    (handle_ocr_base64 env req).1.body =
      create_error_response 500
        ("Internal server error: " ++
         ("[json.exception.type_error.302] type must be string, but is " ++
          (j.get "image").typeName)) := by
  have hstr : (j.get "image").asString =
      .error ("[json.exception.type_error.302] type must be string, but is " ++
              (j.get "image").typeName) := by
    cases hj : j.get "image"
    case str s => exact absurd hj (hnstr s)
    all_goals rfl
  unfold handle_ocr_base64
  simp only [hparse, hhas, Bool.not_true, Bool.false_eq_true, if_false, hstr]
  exact ⟨trivial, trivial⟩

/-- C3 amended-claim witness: the number-valued "image" field yields the
500 envelope with the type-error text for "number". -/
theorem C3_nonstring_image_is_500_witness :
    (Json.obj [("image", Json.num 12345)]).contains "image" = true ∧
    (handle_ocr_base64 c3env { body := "x", form := [] }).1.status = 500 ∧
    (handle_ocr_base64 c3env { body := "x", form := [] }).1.body =
      create_error_response 500
        ("Internal server error: " ++
         ("[json.exception.type_error.302] type must be string, but is " ++
          ((Json.obj [("image", Json.num 12345)]).get "image").typeName)) := by
  have h := C3_nonstring_image_is_500 c3env { body := "x", form := [] }
    (Json.obj [("image", Json.num 12345)]) rfl rfl
    (fun s hs => Json.noConfusion hs)
  exact ⟨rfl, h.1, h.2⟩

/-- A response body one byte over the 10 MiB limit. -/
def bigBody : String := String.mk (List.replicate (10 * 1024 * 1024 + 1) 'a')

lemma bigBody_length : bigBody.length = 10 * 1024 * 1024 + 1 := by
  show (String.mk (List.replicate (10 * 1024 * 1024 + 1) 'a')).length = 10 * 1024 * 1024 + 1
  rw [String.length]
  exact List.length_replicate _ _

/-- C1 counterexample environment: the remote target returns HTTP 200 with
a body one byte over 10 MiB. -/
def c1env : Env :=
  { baseEnv with
    parseJson := fun _ => .ok (Json.obj [("url", Json.str "http://example.com/big.jpg")]),
    httpGet := fun _ _ _ _ => some (200, bigBody) }

def c1req : Request := { body := "", form := [] }

/-- An HTTP 200 response whose body exceeds 10 MiB: the size check inside
`download_image_from_url` fires before decode, and `/api/ocr/url` answers
400.  Kept symbolic in the body `b` so that no concrete oversized string is
ever evaluated. -/
lemma url_fetch_oversized (env : Env) (req : Request) (j : Json)
    (url : String) (p : UrlParts) (b : String)
    (hparse : env.parseJson req.body = .ok j)
    (hhas : j.contains "url" = true)
    (hget : (j.get "url").asString = .ok url)
    (hp : parse_url url = .ok p)
    (hssl : p.use_ssl = true → env.sslSupport = true)
    (hres : env.httpGet p.use_ssl p.host p.port p.path = some (200, b))
    (hblen : b.length > 10 * 1024 * 1024) :
    download_image_from_url env url =
      (none, "Image size exceeds 10MB limit",
       [Event.netGet p.use_ssl p.host p.port p.path]) ∧
    (handle_ocr_url env req).1.status = 400 ∧
    (handle_ocr_url env req).1.body =
      create_error_response 400 "Image size exceeds 10MB limit" ∧
    ∀ d, Event.decode d ∉ (handle_ocr_url env req).2 := by
  have hdl : download_image_from_url env url =
      (none, "Image size exceeds 10MB limit",
       [Event.netGet p.use_ssl p.host p.port p.path]) := by
    unfold download_image_from_url
    rw [hp]
    have hcond : (p.use_ssl && !env.sslSupport) = false := by
      cases hu : p.use_ssl
      · simp
      · simp [hssl (by rw [hu])]
    simp only [hcond, Bool.false_eq_true, if_false, hres]
    rw [if_pos trivial, if_pos hblen]
  have hh := handle_ocr_url_download env req j url hparse hhas hget
  have hfetch : ocr_url_fetch env url =
      ({ status := 400,
         body := create_error_response 400 "Image size exceeds 10MB limit",
         contentType := some "application/json" },
       [Event.netGet p.use_ssl p.host p.port p.path]) := by
    unfold ocr_url_fetch
    rw [hdl]
    simp
  rw [hfetch] at hh
  refine ⟨hdl, ?_, ?_, ?_⟩
  · rw [hh]
  · rw [hh]
  · intro d
    rw [hh]
    simp

/-- C1 counterexample: an oversized remotely fetched body makes
`/api/ocr/url` respond HTTP 400 ("Image size exceeds 10MB limit"),
not HTTP 413 as claimed. -/
theorem C1_counterexample :
    bigBody.length = 10 * 1024 * 1024 + 1 ∧
    (handle_ocr_url c1env c1req).1.status = 400 ∧
    (handle_ocr_url c1env c1req).1.status ≠ 413 := by
  have h := url_fetch_oversized c1env c1req
    (Json.obj [("url", Json.str "http://example.com/big.jpg")])
    "http://example.com/big.jpg"
    { use_ssl := false, host := "example.com", port := 80, path := "/big.jpg" }
    bigBody rfl rfl rfl rfl (fun hf => absurd hf (by decide)) rfl
    (by rw [bigBody_length]; omega)
  refine ⟨bigBody_length, h.2.1, ?_⟩
  rw [h.2.1]
  decide

/-- C1 (amended): an oversized request body is rejected 413 by the
transport gate, and an oversized uploaded file is rejected 413 by
`/api/ocr`, in both cases before decode; but an oversized remotely fetched
body makes the fetch fail with "Image size exceeds 10MB limit" and
`/api/ocr/url` responds HTTP 400 (not 413) — and the image decoder is
never invoked on any of these oversized payloads. -/
theorem C1_size_limits :
    (∀ n, n > payload_max_length → transport_reject n = some 413) ∧
    (∀ env req f, req.form.lookup "image" = some f →
       f.content.length > 10 * 1024 * 1024 →
       (handle_ocr_upload env req).1.status = 413 ∧
       (handle_ocr_upload env req).1.body =
         create_error_response 413 "File size exceeds 10MB limit" ∧
       ∀ d, Event.decode d ∉ (handle_ocr_upload env req).2) ∧
    (∀ env req j url p b,
       env.parseJson req.body = .ok j →
       j.contains "url" = true →
       (j.get "url").asString = .ok url →
       parse_url url = .ok p →
       (p.use_ssl = true → env.sslSupport = true) →
       env.httpGet p.use_ssl p.host p.port p.path = some (200, b) →
       b.length > 10 * 1024 * 1024 →
       download_image_from_url env url =
         (none, "Image size exceeds 10MB limit",
          [Event.netGet p.use_ssl p.host p.port p.path]) ∧
       (handle_ocr_url env req).1.status = 400 ∧
       (handle_ocr_url env req).1.body =
         create_error_response 400 "Image size exceeds 10MB limit" ∧
       ∀ d, Event.decode d ∉ (handle_ocr_url env req).2) := by
  refine ⟨?_, ?_, ?_⟩
  · intro n hn
    unfold transport_reject
    rw [if_pos hn]
  · intro env req f hf hgt
    unfold handle_ocr_upload
    simp only [hf]
    rw [if_pos hgt]
    exact ⟨rfl, rfl, fun d => by simp⟩
  · intro env req j url p b hparse hhas hget hp hssl hres hblen
    exact url_fetch_oversized env req j url p b hparse hhas hget hp hssl hres hblen

/-- C1 amended-claim witness: the transport gate rejects a body one byte
over the limit with 413, and the concrete oversized fetched body yields
the 400 response with no decode event. -/
theorem C1_size_limits_witness :
    transport_reject (10 * 1024 * 1024 + 1) = some 413 ∧
    bigBody.length > 10 * 1024 * 1024 ∧
    ((handle_ocr_url c1env c1req).1.status = 400 ∧
     (handle_ocr_url c1env c1req).1.body =
       create_error_response 400 "Image size exceeds 10MB limit" ∧
     ∀ d, Event.decode d ∉ (handle_ocr_url c1env c1req).2) := by
  have h1 := C1_size_limits.1 (10 * 1024 * 1024 + 1) (by norm_num [payload_max_length])
  have h3 := C1_size_limits.2.2 c1env c1req
    (Json.obj [("url", Json.str "http://example.com/big.jpg")])
    "http://example.com/big.jpg"
    { use_ssl := false, host := "example.com", port := 80, path := "/big.jpg" }
    bigBody rfl rfl rfl rfl (fun hf => absurd hf (by decide)) rfl
    (by rw [bigBody_length]; omega)
  exact ⟨h1, by rw [bigBody_length]; omega, h3.2.1, h3.2.2.1, h3.2.2.2⟩

end PaddleOCR
